import Mathlib

/-!
Verification of the statistical anomaly detector of the incident-manager
repository (`src/triggers.py`), against its natural-language specification.

Embedding conventions:
* Python floats are idealized as real numbers (`ℝ`).
* `datetime` timestamps are opaque to the detector (it only copies them into
  the output records), so they are modelled as integers (`ℤ`).
* A timeseries point `(timestamp, value)` is a pair `ℤ × ℝ`.
* Python `round(x, 4)` rounds to four decimal digits, ties to even
  (banker's rounding); it is modelled exactly, over the real idealization,
  by `round4` below.
* Python exceptions are modelled with `Except`.
-/

open Classical

/-- The one failure kind named by the specification's error taxonomy. -/
inductive DetectorError where
  | invalidConfiguration
  deriving DecidableEq

/-- `MetricAnomaly` (src/models.py): the anomaly record produced by the
detector, one per qualifying point. -/
structure MetricAnomaly where
  metric_name : String
  value : ℝ
  threshold : ℝ
  timestamp : ℤ
  window_seconds : ℤ

/-- `WindowTrigger`'s instance state (src/triggers.py lines 38-40): the two
configuration fields stored by `__init__`. -/
structure WindowTrigger where
  window_seconds : ℤ
  threshold_multiplier : ℝ

/-- `WindowTrigger.__init__` (src/triggers.py lines 38-40).  The body is two
field assignments and nothing else: no validation is performed and no
exception can be raised.  The `Except` form records where an
`InvalidConfiguration` failure would surface if one were raised. -/
def WindowTrigger.init (window_seconds : ℤ) (threshold_multiplier : ℝ) :
    Except DetectorError WindowTrigger :=
  Except.ok ⟨window_seconds, threshold_multiplier⟩

/-- Round-half-to-even on the real idealization of a Python float: the
integer nearest to `x`, ties going to the even neighbour.  This is the tie
rule of Python's `round`. -/
noncomputable def pyRound (x : ℝ) : ℤ :=
  if x - ⌊x⌋ = 1 / 2 then (if Even ⌊x⌋ then ⌊x⌋ else ⌊x⌋ + 1) else round x

/-- Python's `round(x, 4)` on the real idealization: round `x` to four
decimal digits, ties to even. -/
noncomputable def round4 (x : ℝ) : ℝ :=
  (pyRound (x * 10000) : ℝ) / 10000

/-- `WindowTrigger.check` (src/triggers.py lines 42-63).  A series of fewer
than two points yields no anomalies; otherwise the mean, the population
variance (divisor `n`), the standard deviation and the series-global
threshold `mean + threshold_multiplier * std` are computed from all values,
and the qualifying points (`val > threshold`, strict) are emitted in series
order as `MetricAnomaly` records carrying the value and the threshold each
rounded to four decimal digits. -/
noncomputable def WindowTrigger.check (self : WindowTrigger) (metric_name : String)
    (series : List (ℤ × ℝ)) : List MetricAnomaly :=
  if series.length < 2 then []
  else
    let values := series.map (fun p => p.2)
    let n := values.length
    let mean := values.sum / (n : ℝ)
    let variance := (values.map (fun v => (v - mean) ^ 2)).sum / (n : ℝ)
    let std := Real.sqrt variance
    let threshold := mean + self.threshold_multiplier * std
    (series.filter (fun p => decide (threshold < p.2))).map (fun p =>
      { metric_name := metric_name
        value := round4 p.2
        threshold := round4 threshold
        timestamp := p.1
        window_seconds := self.window_seconds })

/-- State-passing form of `WindowTrigger.check`: a Python method receives
`self` and the series by reference, so the embedding returns the post-call
detector state and series along with the result.  The method body
(src/triggers.py lines 42-63) contains no assignment to a `self` field and no
mutating operation on `series` (both are only read), so both come back
unchanged. -/
noncomputable def WindowTrigger.checkRun (self : WindowTrigger) (metric_name : String)
    (series : List (ℤ × ℝ)) :
    List MetricAnomaly × WindowTrigger × List (ℤ × ℝ) :=
  (self.check metric_name series, self, series)

/-- The arithmetic mean of the values of a series, following the spec's
words: "let `mean` = arithmetic mean of all values in `series`". -/
noncomputable def specMean (series : List (ℤ × ℝ)) : ℝ :=
  ((series.map (fun p => p.2)).sum) / (series.length : ℝ)

/-- The population variance of the values of a series, following the spec's
words: "let `variance` = mean of squared deviations from `mean` (population
variance, divisor = n, not n-1)". -/
noncomputable def specVariance (series : List (ℤ × ℝ)) : ℝ :=
  ((series.map (fun p => (p.2 - specMean series) ^ 2)).sum) / (series.length : ℝ)

/-- The flagging threshold, following the spec's words: "let `std` = square
root of `variance`; let `threshold = mean + threshold_multiplier * std`". -/
noncomputable def specThreshold (t : WindowTrigger) (series : List (ℤ × ℝ)) : ℝ :=
  specMean series + t.threshold_multiplier * Real.sqrt (specVariance series)

/-- The record `check` builds for a qualifying point (src/triggers.py lines
56-62), with the series-global threshold `T`. -/
noncomputable def mkRecord (metric_name : String) (t : WindowTrigger) (T : ℝ)
    (p : ℤ × ℝ) : MetricAnomaly :=
  { metric_name := metric_name
    value := round4 p.2
    threshold := round4 T
    timestamp := p.1
    window_seconds := t.window_seconds }

lemma check_eq_filter_map (t : WindowTrigger) (name : String)
    (series : List (ℤ × ℝ)) (h2 : 2 ≤ series.length) :
    t.check name series =
      (series.filter (fun p => decide (specThreshold t series < p.2))).map
        (mkRecord name t (specThreshold t series)) := by
  unfold WindowTrigger.check
  rw [if_neg (by omega)]
  simp only [specThreshold, specVariance, specMean, mkRecord, List.map_map,
    List.length_map, Function.comp_def]
  rfl

lemma pyRound_intCast (m : ℤ) : pyRound (m : ℝ) = m := by
  unfold pyRound
  rw [Int.floor_intCast, if_neg (by norm_num), round_intCast]

lemma pyRound_cases (x : ℝ) : pyRound x = ⌊x⌋ ∨ pyRound x = ⌊x⌋ + 1 := by
  unfold pyRound
  split
  · split
    · exact Or.inl rfl
    · exact Or.inr rfl
  · rw [round_eq]
    have h1 : ⌊x⌋ ≤ ⌊x + 1 / 2⌋ := Int.floor_le_floor (by linarith)
    have h2 : ⌊x + 1 / 2⌋ < ⌊x⌋ + 2 := by
      have hx := Int.lt_floor_add_one x
      refine Int.floor_lt.2 ?_
      push_cast
      linarith
    omega

lemma pyRound_of_ne_half {x : ℝ} (h : x - ⌊x⌋ ≠ 1 / 2) : pyRound x = ⌊x + 1 / 2⌋ := by
  unfold pyRound
  rw [if_neg h, round_eq]

lemma pyRound_mono {x y : ℝ} (h : x ≤ y) : pyRound x ≤ pyRound y := by
  by_cases hf : ⌊x⌋ = ⌊y⌋
  · by_cases tx : x - ⌊x⌋ = 1 / 2 <;> by_cases ty : y - ⌊y⌋ = 1 / 2
    · have hxy : x = y := by rw [← hf] at ty; linarith
      rw [hxy]
    · have hgt : (⌊x⌋ : ℝ) + 1 / 2 ≤ y := by linarith
      rw [pyRound_of_ne_half ty]
      have hle : ⌊x⌋ + 1 ≤ ⌊y + 1 / 2⌋ := by
        refine Int.le_floor.2 ?_
        push_cast
        linarith
      rcases pyRound_cases x with hx | hx <;> omega
    · have hlt : x < (⌊y⌋ : ℝ) + 1 / 2 := by
        rw [← hf]
        rcases lt_or_eq_of_le (show x - ⌊x⌋ ≤ 1 / 2 by
          by_contra hc
          push_neg at hc
          rw [← hf] at ty
          have := Int.floor_le x
          nlinarith [le_of_lt hc]) with h1 | h1
        · linarith
        · exact absurd h1 tx
      rw [pyRound_of_ne_half tx]
      have hle : ⌊x + 1 / 2⌋ ≤ ⌊y⌋ := by
        have : ⌊x + 1 / 2⌋ < ⌊y⌋ + 1 := by
          refine Int.floor_lt.2 ?_
          push_cast
          linarith
        omega
      rcases pyRound_cases y with hy | hy <;> omega
    · rw [pyRound_of_ne_half tx, pyRound_of_ne_half ty]
      exact Int.floor_le_floor (by linarith)
  · have hflt : ⌊x⌋ < ⌊y⌋ := lt_of_le_of_ne (Int.floor_le_floor h) hf
    rcases pyRound_cases x with hx | hx <;> rcases pyRound_cases y with hy | hy <;> omega

lemma round4_mono {x y : ℝ} (h : x ≤ y) : round4 x ≤ round4 y := by
  unfold round4
  have hm : pyRound (x * 10000) ≤ pyRound (y * 10000) :=
    pyRound_mono (by nlinarith)
  have hc : ((pyRound (x * 10000) : ℤ) : ℝ) ≤ ((pyRound (y * 10000) : ℤ) : ℝ) := by
    exact_mod_cast hm
  exact div_le_div_of_nonneg_right hc (by norm_num) |>.trans_eq rfl

lemma round4_eq_self (m : ℤ) (x : ℝ) (hx : x * 10000 = (m : ℝ)) : round4 x = x := by
  unfold round4
  rw [hx, pyRound_intCast]
  have : x = (m : ℝ) / 10000 := by
    field_simp
    linarith
  linarith

lemma mem_check {t : WindowTrigger} {name : String} {series : List (ℤ × ℝ)}
    {r : MetricAnomaly} (h : r ∈ t.check name series) :
    ∃ p ∈ series, specThreshold t series < p.2 ∧
      r = mkRecord name t (specThreshold t series) p := by
  by_cases h2 : 2 ≤ series.length
  · rw [check_eq_filter_map t name series h2] at h
    simp only [List.mem_map, List.mem_filter, decide_eq_true_eq] at h
    obtain ⟨p, ⟨hp, hlt⟩, rfl⟩ := h
    exact ⟨p, hp, hlt, rfl⟩
  · unfold WindowTrigger.check at h
    rw [if_pos (by omega)] at h
    simp at h

lemma specMean_const {series : List (ℤ × ℝ)} {c : ℝ} (h0 : series ≠ [])
    (hc : ∀ p ∈ series, p.2 = c) : specMean series = c := by
  unfold specMean
  have hmap : series.map (fun p => p.2) =
      List.replicate (series.map (fun p => p.2)).length c := by
    refine List.eq_replicate_length.2 ?_
    intro b hb
    obtain ⟨p, hp, rfl⟩ := List.mem_map.1 hb
    exact hc p hp
  rw [hmap, List.sum_replicate, List.length_map]
  have hn : (series.length : ℝ) ≠ 0 := by
    exact_mod_cast fun h => h0 (List.length_eq_zero.1 h)
  rw [nsmul_eq_mul]
  field_simp

lemma specVariance_const {series : List (ℤ × ℝ)} {c : ℝ} (h0 : series ≠ [])
    (hc : ∀ p ∈ series, p.2 = c) : specVariance series = 0 := by
  have hm := specMean_const h0 hc
  unfold specVariance
  simp only [hm]
  have hz : (series.map (fun p => (p.2 - c) ^ 2)).sum = 0 := by
    refine List.sum_eq_zero ?_
    intro x hx
    obtain ⟨p, hp, rfl⟩ := List.mem_map.1 hx
    rw [hc p hp]
    ring
  rw [hz, zero_div]

lemma specThreshold_const {t : WindowTrigger} {series : List (ℤ × ℝ)} {c : ℝ}
    (h0 : series ≠ []) (hc : ∀ p ∈ series, p.2 = c) : specThreshold t series = c := by
  unfold specThreshold
  rw [specMean_const h0 hc, specVariance_const h0 hc, Real.sqrt_zero]
  ring

/-- A concrete detector configuration: window 300 s, multiplier 1/2. -/
noncomputable def t4 : WindowTrigger := ⟨300, 1 / 2⟩

/-- A concrete four-point series with values 0, 0, 6, 6: mean 3, population
variance 9, standard deviation 3, threshold 3 + (1/2)*3 = 9/2. -/
noncomputable def series4 : List (ℤ × ℝ) := [(0, 0), (1, 0), (2, 6), (3, 6)]

lemma specMean_series4 : specMean series4 = 3 := by
  unfold specMean series4
  simp [List.sum_cons]
  norm_num

lemma specVariance_series4 : specVariance series4 = 9 := by
  unfold specVariance
  rw [specMean_series4]
  unfold series4
  simp [List.sum_cons]
  norm_num

lemma specThreshold_series4 : specThreshold t4 series4 = 9 / 2 := by
  unfold specThreshold
  rw [specMean_series4, specVariance_series4]
  rw [show (9 : ℝ) = 3 ^ 2 by norm_num, Real.sqrt_sq (by norm_num : (0 : ℝ) ≤ 3)]
  simp [t4]
  norm_num

lemma check_series4 :
    t4.check "cpu_usage" series4 =
      [⟨"cpu_usage", 6, 9 / 2, 2, 300⟩, ⟨"cpu_usage", 6, 9 / 2, 3, 300⟩] := by
  rw [check_eq_filter_map t4 "cpu_usage" series4 (by norm_num [series4])]
  simp only [specThreshold_series4]
  have h6 : round4 (6 : ℝ) = 6 := round4_eq_self 60000 6 (by norm_num)
  have h45 : round4 ((9 : ℝ) / 2) = 9 / 2 := round4_eq_self 45000 (9 / 2) (by norm_num)
  simp only [series4, List.filter_cons, List.filter_nil, decide_eq_true_eq]
  rw [if_neg (by norm_num), if_neg (by norm_num), if_pos (by norm_num),
    if_pos (by norm_num)]
  simp [mkRecord, h6, h45, t4]

/-- A detector with multiplier 999998/1000000 (a positive, spec-valid
configuration). -/
noncomputable def tC2 : WindowTrigger := ⟨300, 999998 / 1000000⟩

/-- A two-point series with values 0 and 1: mean 1/2, population variance
1/4, standard deviation 1/2, so with multiplier 999998/1000000 the
threshold is 999999/1000000 = 0.999999. -/
noncomputable def seriesC2 : List (ℤ × ℝ) := [(0, 0), (1, 1)]

lemma specMean_seriesC2 : specMean seriesC2 = 1 / 2 := by
  unfold specMean seriesC2
  simp [List.sum_cons]

lemma specVariance_seriesC2 : specVariance seriesC2 = 1 / 4 := by
  unfold specVariance
  rw [specMean_seriesC2]
  unfold seriesC2
  simp [List.sum_cons]
  norm_num

lemma specThreshold_seriesC2 : specThreshold tC2 seriesC2 = 999999 / 1000000 := by
  unfold specThreshold
  rw [specMean_seriesC2, specVariance_seriesC2]
  rw [show (1 / 4 : ℝ) = (1 / 2) ^ 2 by norm_num,
    Real.sqrt_sq (by norm_num : (0 : ℝ) ≤ 1 / 2)]
  simp [tC2]
  norm_num

lemma round4_thrC2 : round4 (999999 / 1000000 : ℝ) = 1 := by
  unfold round4
  rw [show (999999 / 1000000 : ℝ) * 10000 = 999999 / 100 by norm_num]
  have hfl : ⌊(999999 / 100 : ℝ)⌋ = 9999 :=
    Int.floor_eq_iff.2 (by constructor <;> norm_num)
  have hne : (999999 / 100 : ℝ) - ⌊(999999 / 100 : ℝ)⌋ ≠ 1 / 2 := by
    rw [hfl]
    norm_num
  rw [pyRound_of_ne_half hne]
  have hfl2 : ⌊(999999 / 100 : ℝ) + 1 / 2⌋ = 10000 :=
    Int.floor_eq_iff.2 (by constructor <;> norm_num)
  rw [hfl2]
  norm_num

lemma check_seriesC2 :
    tC2.check "error_rate" seriesC2 = [⟨"error_rate", 1, 1, 1, 300⟩] := by
  rw [check_eq_filter_map tC2 "error_rate" seriesC2 (by norm_num [seriesC2])]
  simp only [specThreshold_seriesC2]
  have h1 : round4 (1 : ℝ) = 1 := round4_eq_self 10000 1 (by norm_num)
  simp only [seriesC2, List.filter_cons, List.filter_nil, decide_eq_true_eq]
  rw [if_neg (by norm_num), if_pos (by norm_num)]
  simp [mkRecord, h1, round4_thrC2, tC2]

/-- The detector of spec scenario 1: multiplier 2.5. -/
noncomputable def t6 : WindowTrigger := ⟨300, 5 / 2⟩

/-- The five-point series of spec scenario 1, with values 10, 10, 10, 10,
100. -/
noncomputable def series6 : List (ℤ × ℝ) :=
  [(0, 10), (1, 10), (2, 10), (3, 10), (4, 100)]

lemma specMean_series6 : specMean series6 = 28 := by
  unfold specMean series6
  simp [List.sum_cons]
  norm_num

lemma specVariance_series6 : specVariance series6 = 1296 := by
  unfold specVariance
  rw [specMean_series6]
  unfold series6
  simp [List.sum_cons]
  norm_num

lemma specThreshold_series6 : specThreshold t6 series6 = 118 := by
  unfold specThreshold
  rw [specMean_series6, specVariance_series6]
  rw [show (1296 : ℝ) = 36 ^ 2 by norm_num,
    Real.sqrt_sq (by norm_num : (0 : ℝ) ≤ 36)]
  simp [t6]
  norm_num

/-- C1 counterexample: with `window_seconds = 0` and `threshold_multiplier =
0` — inside the region where the claim says construction must fail —
`WindowTrigger.__init__` succeeds, returning a detector that stores the
values unchanged; no `InvalidConfiguration` is raised. -/
theorem c1_construction_succeeds_on_invalid_config :
    ((0 : ℤ) < 1 ∨ (0 : ℝ) ≤ 0) ∧
      WindowTrigger.init 0 0 = Except.ok ⟨0, 0⟩ :=
  ⟨Or.inl (by norm_num), rfl⟩

/-- C1 (amended): constructing a detector never fails: `__init__`
(src/triggers.py lines 38-40) performs no validation, so for every
`window_seconds` and `threshold_multiplier` — including `0`, `-1` and any
other value — construction succeeds and stores the two values unchanged;
no `InvalidConfiguration` failure exists in the component. -/
theorem c1_construction_never_fails :
    ∀ (w : ℤ) (m : ℝ), WindowTrigger.init w m = Except.ok ⟨w, m⟩ :=
  fun _ _ => rfl

/-- C2 counterexample: for the two-point series with values 0 and 1 and the
positive multiplier 0.999998, the unrounded threshold is 0.999999, the
point with value 1 is flagged, and rounding to four decimal digits lifts
the stored threshold to 1 = the stored value, so the stored `value` is NOT
strictly greater than the stored `threshold`. -/
theorem c2_rounding_breaks_strictness :
    tC2.check "error_rate" seriesC2 = [⟨"error_rate", 1, 1, 1, 300⟩] ∧
      ¬ ((1 : ℝ) < 1) :=
  ⟨check_seriesC2, by norm_num⟩

/-- C2 (amended): every `AnomalyRecord` returned by `check` has its stored
`value` greater than or equal to its stored `threshold`; the strict
inequality holds between the point's unrounded value and the unrounded
threshold, but the rounding to four decimal digits applied when the record
is built can collapse it to equality. -/
theorem c2_value_ge_threshold (t : WindowTrigger) (name : String)
    (series : List (ℤ × ℝ)) (r : MetricAnomaly) (h : r ∈ t.check name series) :
    r.threshold ≤ r.value := by
  obtain ⟨p, _, hlt, rfl⟩ := mem_check h
  simpa [mkRecord] using round4_mono (le_of_lt hlt)

/-- C2 witness: the amended theorem applied to the concrete record produced
on `seriesC2`. -/
theorem c2_value_ge_threshold_witness :
    MetricAnomaly.threshold ⟨"error_rate", 1, 1, 1, 300⟩ ≤
      MetricAnomaly.value ⟨"error_rate", 1, 1, 1, 300⟩ :=
  c2_value_ge_threshold tC2 "error_rate" seriesC2 _ (by rw [check_seriesC2]; simp)

/-- C3: for every series of at least two points, `check` flags exactly the
points whose value is strictly greater than `mean + threshold_multiplier *
sqrt(variance)`, where `mean` is the arithmetic mean of all values and
`variance` is the population variance (divisor n), emitting one record per
qualifying point. -/
theorem c3_threshold_formula (t : WindowTrigger) (name : String)
    (series : List (ℤ × ℝ)) (h2 : 2 ≤ series.length) :
    t.check name series =
      (series.filter (fun p => decide (specThreshold t series < p.2))).map
        (mkRecord name t (specThreshold t series)) :=
  check_eq_filter_map t name series h2

/-- C3 witness: the formula instantiated on the concrete series `series4`. -/
theorem c3_threshold_formula_witness :
    t4.check "cpu_usage" series4 =
      (series4.filter (fun p => decide (specThreshold t4 series4 < p.2))).map
        (mkRecord "cpu_usage" t4 (specThreshold t4 series4)) :=
  c3_threshold_formula t4 "cpu_usage" series4 (by simp [series4])

/-- C4: for every series of fewer than two points and every configuration,
`check` returns the empty list (and, being total, raises no error). -/
theorem c4_short_series_empty (t : WindowTrigger) (name : String)
    (series : List (ℤ × ℝ)) (h : series.length < 2) :
    t.check name series = [] := by
  unfold WindowTrigger.check
  rw [if_pos h]

/-- C4 witness: the single-point series. -/
theorem c4_short_series_empty_witness :
    t4.check "cpu_usage" [((0 : ℤ), (5 : ℝ))] = [] :=
  c4_short_series_empty t4 "cpu_usage" _ (by simp)

/-- C5: for every series of at least two points whose values are all equal,
`check` returns the empty list: the standard deviation is 0, the threshold
equals the mean, and no value is strictly greater than the mean. -/
theorem c5_constant_series_empty (t : WindowTrigger) (name : String)
    (series : List (ℤ × ℝ)) (c : ℝ) (h2 : 2 ≤ series.length)
    (hc : ∀ p ∈ series, p.2 = c) : t.check name series = [] := by
  have h0 : series ≠ [] := by
    intro h
    rw [h] at h2
    simp at h2
  have ht : specThreshold t series = c := specThreshold_const h0 hc
  rw [check_eq_filter_map t name series h2]
  have hnil : series.filter (fun p => decide (specThreshold t series < p.2)) = [] := by
    rw [List.filter_eq_nil_iff]
    intro p hp
    simp [ht, hc p hp]
  rw [hnil]
  rfl

/-- C5 witness: a concrete constant two-point series. -/
theorem c5_constant_series_empty_witness :
    t4.check "cpu_usage" [((0 : ℤ), (3 : ℝ)), ((1 : ℤ), (3 : ℝ))] = [] :=
  c5_constant_series_empty t4 "cpu_usage" _ 3 (by simp) (by simp)

/-- C6: on the concrete series with values 10, 10, 10, 10, 100 and
multiplier 2.5, the mean is 28, the population variance 1296, the standard
deviation 36 and the threshold 118; since 100 < 118, `check` returns the
empty list — the single extreme point does not clear its own inflated
threshold. -/
theorem c6_scenario1_empty : t6.check "checkout_latency_p99" series6 = [] := by
  rw [check_eq_filter_map t6 "checkout_latency_p99" series6 (by simp [series6])]
  simp only [specThreshold_series6]
  have hnil : series6.filter (fun p => decide ((118 : ℝ) < p.2)) = [] := by
    simp only [series6, List.filter_cons, List.filter_nil, decide_eq_true_eq]
    rw [if_neg (by norm_num), if_neg (by norm_num), if_neg (by norm_num),
      if_neg (by norm_num), if_neg (by norm_num)]
  rw [hnil]
  rfl

/-- C7: any two records returned by one `check` call carry the same stored
`threshold`: the series-global threshold is computed once per call and
copied (rounded) into every record. -/
theorem c7_single_threshold (t : WindowTrigger) (name : String)
    (series : List (ℤ × ℝ)) (r1 r2 : MetricAnomaly)
    (h1 : r1 ∈ t.check name series) (h2 : r2 ∈ t.check name series) :
    r1.threshold = r2.threshold := by
  obtain ⟨p1, _, _, rfl⟩ := mem_check h1
  obtain ⟨p2, _, _, rfl⟩ := mem_check h2
  rfl

/-- C7 witness: the two records produced on `series4` share their stored
threshold. -/
theorem c7_single_threshold_witness :
    MetricAnomaly.threshold ⟨"cpu_usage", 6, 9 / 2, 2, 300⟩ =
      MetricAnomaly.threshold ⟨"cpu_usage", 6, 9 / 2, 3, 300⟩ :=
  c7_single_threshold t4 "cpu_usage" series4 _ _
    (by rw [check_series4]; simp) (by rw [check_series4]; simp)

/-- C8: the records returned by `check` preserve the input order: the
timestamps of the output, in output order, form a sublist of the
timestamps of the input series in input order (no re-sorting, so records
need not be in timestamp order if the input was not). -/
theorem c8_output_preserves_input_order (t : WindowTrigger) (name : String)
    (series : List (ℤ × ℝ)) :
    ((t.check name series).map MetricAnomaly.timestamp).Sublist
      (series.map Prod.fst) := by
  by_cases h2 : 2 ≤ series.length
  · rw [check_eq_filter_map t name series h2, List.map_map]
    have hcomp : (MetricAnomaly.timestamp ∘ mkRecord name t (specThreshold t series)) =
        Prod.fst := by
      funext p
      rfl
    rw [hcomp]
    exact (List.filter_sublist series).map Prod.fst
  · rw [show t.check name series = [] from by
      unfold WindowTrigger.check
      rw [if_pos (by omega)]]
    simp

/-- C9: every record emitted by `check` comes from a qualifying point of the
series, and its stored `value` and `threshold` are that point's value and
the computed series threshold, each rounded to four decimal digits
(`round4`) when the record is built. -/
theorem c9_fields_rounded (t : WindowTrigger) (name : String)
    (series : List (ℤ × ℝ)) (r : MetricAnomaly) (h : r ∈ t.check name series) :
    ∃ p ∈ series, specThreshold t series < p.2 ∧
      r.value = round4 p.2 ∧ r.threshold = round4 (specThreshold t series) := by
  obtain ⟨p, hp, hlt, rfl⟩ := mem_check h
  exact ⟨p, hp, hlt, rfl, rfl⟩

/-- C9 witness: the first record produced on `series4`. -/
theorem c9_fields_rounded_witness :
    ∃ p ∈ series4, specThreshold t4 series4 < p.2 ∧
      MetricAnomaly.value ⟨"cpu_usage", 6, 9 / 2, 2, 300⟩ = round4 p.2 ∧
      MetricAnomaly.threshold ⟨"cpu_usage", 6, 9 / 2, 2, 300⟩ =
        round4 (specThreshold t4 series4) :=
  c9_fields_rounded t4 "cpu_usage" series4 _ (by rw [check_series4]; simp)

/-- C10: in the state-passing form of `check`, the detector configuration
and the input series come back unchanged from a call, and running the call
again from the post-call state yields the identical output (no mutation, no
hidden state, idempotence). -/
theorem c10_no_mutation_idempotent (t : WindowTrigger) (name : String)
    (series : List (ℤ × ℝ)) :
    (t.checkRun name series).2.1 = t ∧
      (t.checkRun name series).2.2 = series ∧
      ((t.checkRun name series).2.1.checkRun name
          ((t.checkRun name series).2.2)).1 = (t.checkRun name series).1 :=
  ⟨rfl, rfl, rfl⟩
